import Mathlib

/-!
Shallow embedding of the reading-tracker bot's core logic
(src/app/scheduler.py, src/app/db.py, src/app/bot.py).

Calendar dates are modelled as integer day ordinals (so Python's
`(target_date - start_date).days` becomes integer subtraction, and
Python's floor division `//` becomes `Int.fdiv`).  The SQLite database
is modelled as an explicit state record holding the book rows, the
reminder rows and the settings key/value table; Telegram side effects
are modelled as a list of emitted outbound messages, with fresh message
identifiers drawn from a counter in the state.
-/

namespace LibraryBot

/-- Book status column: the source stores the strings
`active`, `paused`, `finished`. -/
inductive BookStatus
  | active
  | paused
  | finished
deriving DecidableEq, Repr

/-- Reminder status column: the source stores `pending` or `done`. -/
inductive RemStatus
  | pending
  | done
deriving DecidableEq, Repr

/-- A row of the `books` table (columns used by the core logic;
`title`, `author` and `created_at` carry no logic and are omitted).
Dates are integer day ordinals; timestamps are integers. -/
structure Book where
  id : Int
  totalPages : Int
  startPage : Int
  startDate : Int
  status : BookStatus
  headerMessageId : Option Int
  lastReadPage : Int
  lastReadDate : Option Int
  finishedAt : Option Int
deriving DecidableEq, Repr

/-- A row of the `reminders` table. -/
structure Reminder where
  id : Int
  bookId : Int
  date : Int
  fromPage : Int
  toPage : Int
  pagesPlanned : Int
  status : RemStatus
  channelMessageId : Option Int
  doneAt : Option Int
deriving DecidableEq, Repr

/-- The world state: database tables plus the row-id counter for
reminders and the message-id counter of the external channel. -/
structure St where
  books : List Book
  reminders : List Reminder
  settings : List (String × String)
  nextReminderId : Int
  nextMessageId : Int
deriving DecidableEq, Repr

/-- Outbound side effects of a run (Telegram calls made by the code). -/
inductive OutMsg
  | post (chatId msgId reminderId : Int)
  | editHeader (chatId msgId bookId : Int)
  | finishAnnounce (chatId bookId : Int)
  | deleteMsg (chatId msgId : Int)
deriving DecidableEq, Repr

/-! ### Python `int(...)` and `HH:MM` parsing, from scheduler.py -/

/-- ASCII decimal digit test. -/
def isPyDigit (c : Char) : Bool :=
  decide ('0' ≤ c) && decide (c ≤ '9')

/-- ASCII whitespace stripped by Python's `int(str)`. -/
def isPyWs (c : Char) : Bool :=
  c == ' ' || c == '\t' || c == '\n' || c == '\r' ||
    c == Char.ofNat 11 || c == Char.ofNat 12

/-- Numeric value of a digit character. -/
def digitVal (c : Char) : Int :=
  (c.toNat : Int) - 48

/-- Digit-string accumulator for `int(str)`: after a digit, the next
character may be a digit or a single underscore followed by a digit. -/
def parseDigitsAux : List Char → Int → Option Int
  | [], acc => some acc
  | c :: rest, acc =>
    if isPyDigit c then parseDigitsAux rest (acc * 10 + digitVal c)
    else if c == '_' then
      match rest with
      | [] => none
      | d :: _ => if isPyDigit d then parseDigitsAux rest acc else none
    else none

/-- Unsigned digit run of `int(str)`: nonempty, starts with a digit. -/
def parseDigitRun : List Char → Option Int
  | [] => none
  | c :: rest => if isPyDigit c then parseDigitsAux rest (digitVal c) else none

/-- Model of Python `int(str)` on a character list: strip whitespace,
optional sign, base-10 digits (with underscore group separators);
`none` models `ValueError`. -/
def pyParseIntChars (cs0 : List Char) : Option Int :=
  match ((cs0.dropWhile isPyWs).reverse.dropWhile isPyWs).reverse with
  | '+' :: rest => parseDigitRun rest
  | '-' :: rest => (parseDigitRun rest).map (fun n => -n)
  | rest => parseDigitRun rest

/-- Model of Python `int(str)`. -/
def pyParseInt (s : String) : Option Int :=
  pyParseIntChars s.data

/-- Python `str.split(":")`: split the character list at every colon. -/
def splitOnColon : List Char → List (List Char)
  | [] => [[]]
  | c :: rest =>
    if c == ':' then [] :: splitOnColon rest
    else
      match splitOnColon rest with
      | [] => [[c]]
      | g :: gs => (c :: g) :: gs

/-- `parse_time_hh_mm` from scheduler.py: split on `:`, require exactly
two parts, parse both as integers, check 24-hour bounds; `none` models
the raised `ValueError`. -/
def parseTimeHHMM (s : String) : Option (Int × Int) :=
  match splitOnColon s.data with
  | [hpart, mpart] =>
    match pyParseIntChars hpart, pyParseIntChars mpart with
    | some hour, some minute =>
      if hour < 0 || 23 < hour || minute < 0 || 59 < minute then none
      else some (hour, minute)
    | _, _ => none
  | _ => none

/-! ### Database operations, from db.py -/

/-- `get_setting`: look up a settings row by key. -/
def lookupSetting (st : St) (key : String) : Option String :=
  (st.settings.find? (fun kv => kv.1 == key)).map (fun kv => kv.2)

/-- `get_book`: fetch a book row by id. -/
def findBook (st : St) (bookId : Int) : Option Book :=
  st.books.find? (fun b => b.id == bookId)

/-- `get_reminder`: fetch a reminder row by id. -/
def findReminderById (st : St) (reminderId : Int) : Option Reminder :=
  st.reminders.find? (fun r => r.id == reminderId)

/-- `get_reminder_by_book_and_date`. -/
def findReminderBD (st : St) (bookId rdate : Int) : Option Reminder :=
  st.reminders.find? (fun r => r.bookId == bookId && r.date == rdate)

/-- `update_book_progress`: set `last_read_page` and `last_read_date`. -/
def updateBookProgress (st : St) (bookId lastReadPage lastReadDate : Int) : St :=
  { st with books := st.books.map (fun b =>
      if b.id == bookId then
        { b with lastReadPage := lastReadPage, lastReadDate := some lastReadDate }
      else b) }

/-- The `WHERE id = ? AND status != 'finished'` predicate of `finish_book`. -/
def finishHit (bookId : Int) (b : Book) : Bool :=
  b.id == bookId && !(b.status == BookStatus.finished)

/-- The `SET` clause of `finish_book`: the `last_read_page` column is
updated only when the optional argument is supplied. -/
def finishApply (bookId finishDate : Int) (lastReadPage : Option Int)
    (b : Book) : Book :=
  if finishHit bookId b then
    { b with status := BookStatus.finished, finishedAt := some finishDate,
             lastReadDate := some finishDate,
             lastReadPage := lastReadPage.getD b.lastReadPage }
  else b

/-- `finish_book`: conditional update `SET status='finished', ...
WHERE id = ? AND status != 'finished'`; returns the new state and
whether any row changed (`rowcount > 0`). -/
def finishBook (st : St) (bookId finishDate : Int) (lastReadPage : Option Int) :
    St × Bool :=
  ({ st with books := st.books.map (finishApply bookId finishDate lastReadPage) },
   st.books.any (finishHit bookId))

/-- `create_or_get_reminder`: look up by (book, date); if present return
the existing row and create nothing, else insert a fresh `pending` row
with no channel message and return it. -/
def createOrGetReminder (st : St) (bookId rdate fromPage toPage pagesPlanned : Int) :
    Reminder × Bool × St :=
  match findReminderBD st bookId rdate with
  | some existing => (existing, false, st)
  | none =>
    let r : Reminder :=
      { id := st.nextReminderId, bookId := bookId, date := rdate,
        fromPage := fromPage, toPage := toPage, pagesPlanned := pagesPlanned,
        status := RemStatus.pending, channelMessageId := none, doneAt := none }
    (r, true, { st with reminders := st.reminders ++ [r],
                        nextReminderId := st.nextReminderId + 1 })

/-- `set_reminder_channel_message`. -/
def setReminderChannelMessage (st : St) (reminderId messageId : Int) : St :=
  { st with reminders := st.reminders.map (fun r =>
      if r.id == reminderId then { r with channelMessageId := some messageId }
      else r) }

/-- `mark_reminder_done`: set status `done` and `done_at`, overwriting
the stored range only when both endpoints are supplied. -/
def markReminderDone (st : St) (reminderId doneAt : Int)
    (range : Option (Int × Int)) : St :=
  { st with reminders := st.reminders.map (fun r =>
      if r.id == reminderId then
        match range with
        | none => { r with status := RemStatus.done, doneAt := some doneAt }
        | some ft => { r with status := RemStatus.done, doneAt := some doneAt,
                              fromPage := ft.1, toPage := ft.2 }
      else r) }

/-! ### Scheduler, from scheduler.py -/

/-- `_parse_positive_int`: missing, unparseable, or non-positive stored
values fall back to the given default. -/
def parsePositiveInt (raw : Option String) (fallback : Int) : Int :=
  match raw with
  | none => fallback
  | some s =>
    match pyParseInt s with
    | none => fallback
    | some parsed => if parsed ≤ 0 then fallback else parsed

/-- `_get_algorithm_settings`: pacing parameters with defaults 10/5/7. -/
def getAlgorithmSettings (st : St) : Int × Int × Int :=
  (parsePositiveInt (lookupSetting st "start_pages") 10,
   parsePositiveInt (lookupSetting st "weekly_increment") 5,
   parsePositiveInt (lookupSetting st "increment_every_days") 7)

/-- `_calculate_daily_range`: the pacing calculator. -/
def calculateDailyRange (book : Book)
    (targetDate startPages weeklyIncrement incrementEveryDays : Int) :
    Int × Int × Int :=
  let deltaDays := targetDate - book.startDate
  let weekIndex := max 0 (deltaDays.fdiv incrementEveryDays)
  let pagesForDate := startPages + weeklyIncrement * weekIndex
  let fromPage := book.lastReadPage + 1
  let toPage := min (fromPage + pagesForDate - 1) book.totalPages
  (fromPage, toPage, pagesForDate)

/-- `_finish_book_if_needed` (scheduler): attempt the conditional finish
transition; only if it changed something, edit the header message (when
one exists) and post the completion announcement. -/
def finishBookIfNeeded (st : St) (book : Book) (finishDate chId : Int) :
    St × List OutMsg :=
  let fb := finishBook st book.id finishDate (some book.totalPages)
  if fb.2 then
    let headerMsgs :=
      match book.headerMessageId with
      | some m => [OutMsg.editHeader chId m book.id]
      | none => []
    (fb.1, headerMsgs ++ [OutMsg.finishAnnounce chId book.id])
  else (fb.1, [])

/-- `_process_book_for_date`: one book's step of a scheduler run. -/
def processBookForDate (st : St) (book : Book) (targetDate chId : Int)
    (algo : Int × Int × Int) : St × List OutMsg :=
  if targetDate < book.startDate then (st, [])
  else if book.totalPages ≤ book.lastReadPage then
    finishBookIfNeeded st book targetDate chId
  else
    let fr := calculateDailyRange book targetDate algo.1 algo.2.1 algo.2.2
    if book.totalPages < fr.1 then finishBookIfNeeded st book targetDate chId
    else
      let cg := createOrGetReminder st book.id targetDate fr.1 fr.2.1 fr.2.2
      let rem := cg.1
      let st₁ := cg.2.2
      if !(rem.status == RemStatus.pending) then (st₁, [])
      else if rem.channelMessageId.isSome then (st₁, [])
      else
        let mid := st₁.nextMessageId
        let st₂ := { st₁ with nextMessageId := mid + 1 }
        let st₃ := setReminderChannelMessage st₂ rem.id mid
        (st₃, [OutMsg.post chId mid rem.id])

/-- `run_for_date`: abort when `channel_id` is missing, empty or not an
integer; otherwise snapshot the pacing settings and the active books
and process each book in turn, threading the state. -/
def runForDate (st : St) (targetDate : Int) : St × List OutMsg :=
  match lookupSetting st "channel_id" with
  | none => (st, [])
  | some raw =>
    if raw == "" then (st, [])
    else
      match pyParseInt raw with
      | none => (st, [])
      | some chId =>
        let algo := getAlgorithmSettings st
        let books := st.books.filter (fun b => b.status == BookStatus.active)
        books.foldl
          (fun acc book =>
            let pr := processBookForDate acc.1 book targetDate chId algo
            (pr.1, acc.2 ++ pr.2))
          (st, [])

/-- `refresh_schedule`, reduced to the trigger time it derives: the
stored `reminder_time` (falsy values replaced by "08:00"), parsed as
HH:MM, falling back to 08:00 on a `ValueError`. -/
def refreshScheduleTime (st : St) : Int × Int :=
  let raw :=
    match lookupSetting st "reminder_time" with
    | none => "08:00"
    | some s => if s == "" then "08:00" else s
  match parseTimeHHMM raw with
  | some hm => hm
  | none => (8, 0)

/-! ### Owner callbacks, from bot.py -/

/-- `_get_channel_id` (bot): stored channel id parsed as an integer,
`none` when missing or unparseable. -/
def getChannelId (st : St) : Option Int :=
  match lookupSetting st "channel_id" with
  | none => none
  | some raw => pyParseInt raw

/-- `_delete_channel_reminder_message`: best-effort delete of the posted
channel message, skipped when the reminder has no handle or the channel
is unconfigured. -/
def deleteChannelReminderMessage (st : St) (reminder : Reminder) : List OutMsg :=
  match reminder.channelMessageId with
  | none => []
  | some mid =>
    match getChannelId st with
    | none => []
    | some ch => [OutMsg.deleteMsg ch mid]

/-- `_finish_book_if_completed` (bot): when the newly recorded page
reaches the end of the book, attempt the conditional finish transition
and, only on an actual change, emit the header edit and announcement. -/
def finishBookIfCompleted (st : St) (book : Book)
    (finishDate newLastReadPage : Int) : St × List OutMsg :=
  if newLastReadPage < book.totalPages then (st, [])
  else
    let fb := finishBook st book.id finishDate (some newLastReadPage)
    if fb.2 then
      match getChannelId fb.1 with
      | none => (fb.1, [])
      | some ch =>
        let headerMsgs :=
          match book.headerMessageId with
          | some m => [OutMsg.editHeader ch m book.id]
          | none => []
        (fb.1, headerMsgs ++ [OutMsg.finishAnnounce ch book.id])
    else (fb.1, [])

/-- `callback_mark_read`: the plain owner acknowledgment.  For a
non-`done` reminder whose book exists, mark the reminder done, set the
book's progress to the reminder's stored `to_page` and date, delete the
channel message, and run finish reconciliation. -/
def callbackMarkRead (st : St) (reminderId nowTs : Int) : St × List OutMsg :=
  match findReminderById st reminderId with
  | none => (st, [])
  | some reminder =>
    if reminder.status == RemStatus.done then (st, [])
    else
      match findBook st reminder.bookId with
      | none => (st, [])
      | some book =>
        let st₁ := markReminderDone st reminderId nowTs none
        let st₂ := updateBookProgress st₁ book.id reminder.toPage reminder.date
        let del := deleteChannelReminderMessage st₂ reminder
        let fc := finishBookIfCompleted st₂ book reminder.date reminder.toPage
        (fc.1, del ++ fc.2)

/-- `_handle_pending_read_different`: the corrected-range acknowledgment
(after the page range has been parsed).  The returned flag records
whether the correction was accepted (reached the mutation branch). -/
def handleReadDifferent (st : St) (reminderId fromPage toPage nowTs : Int) :
    St × List OutMsg × Bool :=
  match findReminderById st reminderId with
  | none => (st, [], false)
  | some reminder =>
    if reminder.status == RemStatus.done then (st, [], false)
    else
      match findBook st reminder.bookId with
      | none => (st, [], false)
      | some book =>
        if toPage < fromPage then (st, [], false)
        else if fromPage < book.startPage then (st, [], false)
        else if book.totalPages < toPage then (st, [], false)
        else if toPage ≤ book.lastReadPage then (st, [], false)
        else
          let st₁ := markReminderDone st reminderId nowTs (some (fromPage, toPage))
          let st₂ := updateBookProgress st₁ book.id toPage reminder.date
          let del := deleteChannelReminderMessage st₂ reminder
          let fc := finishBookIfCompleted st₂ book reminder.date toPage
          (fc.1, del ++ fc.2, true)

/-- The daily-range computation exactly as the specification words it
(section 4.1): deltaDays, weekIndex, pagesPlanned, fromPage, toPage. -/
def specDailyRange (book : Book)
    (targetDate startPages weeklyIncrement incrementEveryDays : Int) :
    Int × Int × Int :=
  let deltaDays := targetDate - book.startDate
  let weekIndex := max 0 (deltaDays.fdiv incrementEveryDays)
  let pagesPlanned := startPages + weeklyIncrement * weekIndex
  let fromPage := book.lastReadPage + 1
  let toPage := min (fromPage + pagesPlanned - 1) book.totalPages
  (fromPage, toPage, pagesPlanned)

/-! ### Helper lemmas -/

/-- Mapping a function that fixes every element of a list is the identity. -/
theorem map_eq_self_of_fix {α : Type} (f : α → α) :
    ∀ (l : List α), (∀ x ∈ l, f x = x) → l.map f = l
  | [], _ => rfl
  | a :: l, h => by
    rw [List.map_cons, h a (by simp),
      map_eq_self_of_fix f l (fun x hx => h x (by simp [hx]))]

/-- `find?` commutes with a map that does not affect the predicate. -/
theorem find?_map_pred {α : Type} (f : α → α) (p : α → Bool)
    (hp : ∀ x, p (f x) = p x) :
    ∀ (l : List α), (l.map f).find? p = (l.find? p).map f
  | [] => rfl
  | a :: l => by
    rw [List.map_cons]
    by_cases h : p a = true
    · rw [List.find?_cons_of_pos _ (by rw [hp]; exact h),
        List.find?_cons_of_pos _ h]
      rfl
    · rw [List.find?_cons_of_neg _ (by rw [hp]; simpa using h),
        List.find?_cons_of_neg _ (by simpa using h), find?_map_pred f p hp l]

/-- `create_or_get_reminder` returns the existing row untouched when one
is already stored for the (book, date) pair. -/
theorem createOrGet_of_found {st : St} {b d : Int} {e : Reminder}
    (h : findReminderBD st b d = some e) (f t p : Int) :
    createOrGetReminder st b d f t p = (e, false, st) := by
  unfold createOrGetReminder
  rw [h]

/-- `findReminderBD` reads only the reminders table. -/
theorem findRemBD_congr {st₁ st₂ : St} (h : st₁.reminders = st₂.reminders)
    (b d : Int) : findReminderBD st₁ b d = findReminderBD st₂ b d := by
  unfold findReminderBD
  rw [h]

/-- `findReminderById` reads only the reminders table. -/
theorem findRemById_congr {st₁ st₂ : St} (h : st₁.reminders = st₂.reminders)
    (rid : Int) : findReminderById st₁ rid = findReminderById st₂ rid := by
  unfold findReminderById
  rw [h]

/-- `findBook` reads only the books table. -/
theorem findBook_congr {st₁ st₂ : St} (h : st₁.books = st₂.books)
    (bid : Int) : findBook st₁ bid = findBook st₂ bid := by
  unfold findBook
  rw [h]

/-- `finish_book` never touches the reminders table. -/
theorem finishBook_reminders (st : St) (bookId fd : Int) (p : Option Int) :
    ((finishBook st bookId fd p).1).reminders = st.reminders := rfl

/-- The scheduler's finish step never touches the reminders table. -/
theorem finishBookIfNeeded_reminders (st : St) (book : Book) (fd ch : Int) :
    ((finishBookIfNeeded st book fd ch).1).reminders = st.reminders := by
  unfold finishBookIfNeeded
  rcases h2 : (finishBook st book.id fd (some book.totalPages)).2 <;>
    simp [h2, finishBook_reminders]

/-- The bot's finish step never touches the reminders table. -/
theorem finishBookIfCompleted_reminders (st : St) (book : Book) (fd p : Int) :
    ((finishBookIfCompleted st book fd p).1).reminders = st.reminders := by
  unfold finishBookIfCompleted
  by_cases h : p < book.totalPages
  · simp [h]
  · rcases h2 : (finishBook st book.id fd (some p)).2
    · simp [h, h2, finishBook_reminders]
    · rcases h3 : getChannelId (finishBook st book.id fd (some p)).1 <;>
        simp [h, h2, h3, finishBook_reminders]

/-- `create_or_get_reminder` in the missing case: inserts a fresh
pending row at the end of the table and bumps the row-id counter. -/
theorem createOrGet_of_missing {st : St} {b d : Int}
    (h : findReminderBD st b d = none) (f t p : Int) :
    createOrGetReminder st b d f t p =
      ({ id := st.nextReminderId, bookId := b, date := d, fromPage := f,
         toPage := t, pagesPlanned := p, status := RemStatus.pending,
         channelMessageId := none, doneAt := none }, true,
       { st with
         reminders := st.reminders ++
           [{ id := st.nextReminderId, bookId := b, date := d, fromPage := f,
              toPage := t, pagesPlanned := p, status := RemStatus.pending,
              channelMessageId := none, doneAt := none }],
         nextReminderId := st.nextReminderId + 1 }) := by
  unfold createOrGetReminder
  rw [h]

/-- `finish_book` is a no-op reporting no change when every row with the
target id is already finished. -/
theorem finishBook_noop {st : St} {bookId finishDate : Int} {lrp : Option Int}
    (h : ∀ b ∈ st.books, b.id = bookId → b.status = BookStatus.finished) :
    finishBook st bookId finishDate lrp = (st, false) := by
  have hhit : ∀ b ∈ st.books, finishHit bookId b = false := by
    intro b hb
    by_cases hid : b.id = bookId
    · simp [finishHit, h b hb hid]
    · simp [finishHit, hid]
  have hfix : ∀ b ∈ st.books, finishApply bookId finishDate lrp b = b :=
    fun b hb => by simp [finishApply, hhit b hb]
  unfold finishBook
  rw [Prod.mk.injEq]
  refine ⟨?_, List.any_eq_false.mpr (fun b hb => by simp [hhit b hb])⟩
  rw [map_eq_self_of_fix _ st.books hfix]

/-- Claim C1: for targetDate ≥ start_date and positive pacing parameters
the daily-range calculation returns exactly the specification's
(fromPage, toPage, pagesPlanned) formula — where its weekIndex really is
the floor of deltaDays / incrementEveryDays, witnessed by the bracketing
inequality — and it yields (1, 10, 10) on the start date of the spec's
Scenario A book and (11, 25, 15) seven days later with last_read_page = 10. -/
theorem claim1_daily_range_formula :
    (∀ (book : Book) (targetDate sp wi ied : Int),
      book.startDate ≤ targetDate → 0 < sp → 0 < wi → 0 < ied →
      calculateDailyRange book targetDate sp wi ied =
        specDailyRange book targetDate sp wi ied ∧
      ied * max 0 ((targetDate - book.startDate).fdiv ied) ≤
        targetDate - book.startDate ∧
      targetDate - book.startDate <
        ied * (max 0 ((targetDate - book.startDate).fdiv ied) + 1)) ∧
    calculateDailyRange ⟨1, 300, 1, 0, .active, none, 0, none, none⟩ 0 10 5 7 =
      (1, 10, 10) ∧
    calculateDailyRange ⟨1, 300, 1, 0, .active, none, 10, none, none⟩ 7 10 5 7 =
      (11, 25, 15) := by
  refine ⟨?_, by decide, by decide⟩
  intro book targetDate sp wi ied hdate hsp hwi hied
  have hd : 0 ≤ targetDate - book.startDate := by omega
  have hne : ied ≠ 0 := by omega
  have hq : 0 ≤ (targetDate - book.startDate).fdiv ied := by
    rw [Int.fdiv_eq_ediv _ (le_of_lt hied)]
    exact Int.ediv_nonneg hd (le_of_lt hied)
  rw [max_eq_right hq, Int.fdiv_eq_ediv _ (le_of_lt hied)]
  refine ⟨rfl, ?_, ?_⟩
  · have h1 := Int.ediv_add_emod (targetDate - book.startDate) ied
    have h2 := Int.emod_nonneg (targetDate - book.startDate) hne
    linarith
  · have h1 := Int.ediv_add_emod (targetDate - book.startDate) ied
    have h3 := Int.emod_lt_of_pos (targetDate - book.startDate) hied
    rw [mul_add, mul_one]
    linarith

/-- Witness for C1 at the Scenario A day-7 input. -/
theorem claim1_daily_range_formula_witness :
    calculateDailyRange ⟨1, 300, 1, 0, .active, none, 10, none, none⟩ 7 10 5 7 =
      specDailyRange ⟨1, 300, 1, 0, .active, none, 10, none, none⟩ 7 10 5 7 :=
  (claim1_daily_range_formula.1 ⟨1, 300, 1, 0, .active, none, 10, none, none⟩
    7 10 5 7 (by decide) (by decide) (by decide) (by decide)).1

/-- Claim C6: the computed toPage never exceeds total_pages, fromPage ≤
toPage whenever fromPage ≤ total_pages, and in the spec's Scenario B
(last_read_page 295, total 300, planned 20) the range clamps to 300
while the reminder row stores the unclamped pages_planned 20. -/
theorem claim6_clamping :
    (∀ (book : Book) (targetDate sp wi ied : Int),
      book.startDate ≤ targetDate → 0 < sp → 0 < wi → 0 < ied →
      (calculateDailyRange book targetDate sp wi ied).2.1 ≤ book.totalPages ∧
      ((calculateDailyRange book targetDate sp wi ied).1 ≤ book.totalPages →
        (calculateDailyRange book targetDate sp wi ied).1 ≤
          (calculateDailyRange book targetDate sp wi ied).2.1)) ∧
    calculateDailyRange ⟨2, 300, 1, 0, .active, none, 295, none, none⟩ 14 10 5 7 =
      (296, 300, 20) ∧
    (runForDate ⟨[⟨2, 300, 1, 0, .active, none, 295, none, none⟩], [],
        [("channel_id", "-100")], 1, 1000⟩ 14).1.reminders =
      [⟨1, 2, 14, 296, 300, 20, .pending, some 1000, none⟩] := by
  refine ⟨?_, by decide, by decide⟩
  intro book targetDate sp wi ied hdate hsp hwi hied
  have hprod : 0 ≤ wi * max 0 ((targetDate - book.startDate).fdiv ied) :=
    mul_nonneg (le_of_lt hwi) (le_max_left 0 _)
  have hsp1 : (1 : Int) ≤ sp := hsp
  constructor
  · exact min_le_right _ _
  · intro hfrom
    refine le_min ?_ hfrom
    show book.lastReadPage + 1 ≤
      book.lastReadPage + 1 +
        (sp + wi * max 0 ((targetDate - book.startDate).fdiv ied)) - 1
    linarith

/-- Witness for C6 at the Scenario B input. -/
theorem claim6_clamping_witness :
    (calculateDailyRange ⟨2, 300, 1, 0, .active, none, 295, none, none⟩
        14 10 5 7).2.1 ≤ (300 : Int) ∧
    ((calculateDailyRange ⟨2, 300, 1, 0, .active, none, 295, none, none⟩
        14 10 5 7).1 ≤ (300 : Int) →
      (calculateDailyRange ⟨2, 300, 1, 0, .active, none, 295, none, none⟩
        14 10 5 7).1 ≤
        (calculateDailyRange ⟨2, 300, 1, 0, .active, none, 295, none, none⟩
          14 10 5 7).2.1) :=
  claim6_clamping.1 ⟨2, 300, 1, 0, .active, none, 295, none, none⟩
    14 10 5 7 (by decide) (by decide) (by decide) (by decide)

/-- Claim C2: `create_or_get_reminder` is idempotent — a second call for
the same (book, date) returns the first call's row and creates nothing
new (the at-most-one-row-per-pair count is preserved) — and a second
scheduler pass over the same (book, date) is a complete no-op whenever
the stored reminder is non-pending or already carries a channel message
handle. -/
theorem claim2_reminder_idempotence :
    (∀ (st : St) (b d f t p f2 t2 p2 : Int),
      createOrGetReminder ((createOrGetReminder st b d f t p).2.2) b d f2 t2 p2 =
        ((createOrGetReminder st b d f t p).1, false,
          (createOrGetReminder st b d f t p).2.2)) ∧
    (∀ (st : St) (b d f t p : Int),
      st.reminders.countP (fun r => r.bookId == b && r.date == d) ≤ 1 →
      ((createOrGetReminder st b d f t p).2.2).reminders.countP
        (fun r => r.bookId == b && r.date == d) ≤ 1) ∧
    (∀ (st : St) (book : Book) (d ch : Int) (algo : Int × Int × Int) (r : Reminder),
      book.lastReadPage < book.totalPages →
      findReminderBD st book.id d = some r →
      (¬ r.status = RemStatus.pending ∨ ¬ r.channelMessageId = none) →
      processBookForDate st book d ch algo = (st, [])) := by
  refine ⟨?_, ?_, ?_⟩
  · intro st b d f t p f2 t2 p2
    rcases h : findReminderBD st b d with _ | e
    · have hfind : findReminderBD
          { st with
            reminders := st.reminders ++
              [{ id := st.nextReminderId, bookId := b, date := d, fromPage := f,
                 toPage := t, pagesPlanned := p, status := RemStatus.pending,
                 channelMessageId := none, doneAt := none }],
            nextReminderId := st.nextReminderId + 1 } b d =
          some { id := st.nextReminderId, bookId := b, date := d, fromPage := f,
                 toPage := t, pagesPlanned := p, status := RemStatus.pending,
                 channelMessageId := none, doneAt := none } := by
        unfold findReminderBD at h ⊢
        rw [List.find?_append, h]
        simp
      rw [createOrGet_of_missing h f t p]
      exact createOrGet_of_found hfind f2 t2 p2
    · rw [createOrGet_of_found h f t p]
      exact createOrGet_of_found h f2 t2 p2
  · intro st b d f t p hle
    rcases h : findReminderBD st b d with _ | e
    · rw [createOrGet_of_missing h f t p]
      have h0 : st.reminders.countP (fun r => r.bookId == b && r.date == d) = 0 := by
        rw [List.countP_eq_zero]
        intro a ha
        exact List.find?_eq_none.mp h a ha
      show (st.reminders ++ [_]).countP _ ≤ 1
      rw [List.countP_append, h0]
      simp
    · rw [createOrGet_of_found h f t p]
      exact hle
  · intro st book d ch algo r hlt hfind hguard
    unfold processBookForDate
    by_cases hd : d < book.startDate
    · rw [if_pos hd]
    · rw [if_neg hd, if_neg (by omega : ¬ book.totalPages ≤ book.lastReadPage)]
      dsimp only
      have hfr1 : (calculateDailyRange book d algo.1 algo.2.1 algo.2.2).1 =
          book.lastReadPage + 1 := rfl
      rw [if_neg (by rw [hfr1]; omega :
        ¬ book.totalPages < (calculateDailyRange book d algo.1 algo.2.1 algo.2.2).1)]
      rw [createOrGet_of_found hfind]
      by_cases hs : r.status = RemStatus.pending
      · rcases hguard with hg | hg
        · exact absurd hs hg
        · simp [hs, Option.isSome_iff_ne_none.mpr hg]
      · simp [hs]

/-- Witness for C2: a scheduler pass over a book whose reminder for the
date is already done changes nothing and posts nothing, and a repeated
`create_or_get_reminder` hands back the created row. -/
theorem claim2_reminder_idempotence_witness :
    processBookForDate
        ⟨[⟨1, 300, 1, 0, .active, some 50, 10, some 5, none⟩],
         [⟨1, 1, 5, 1, 10, 10, .done, some 77, some 9⟩],
         [("channel_id", "-100")], 2, 1000⟩
        ⟨1, 300, 1, 0, .active, some 50, 10, some 5, none⟩ 5 (-100) (10, 5, 7) =
      (⟨[⟨1, 300, 1, 0, .active, some 50, 10, some 5, none⟩],
        [⟨1, 1, 5, 1, 10, 10, .done, some 77, some 9⟩],
        [("channel_id", "-100")], 2, 1000⟩, []) ∧
    createOrGetReminder
        ((createOrGetReminder ⟨[], [], [], 1, 1000⟩ 1 5 1 10 10).2.2) 1 5 2 11 10 =
      ((createOrGetReminder ⟨[], [], [], 1, 1000⟩ 1 5 1 10 10).1, false,
       (createOrGetReminder ⟨[], [], [], 1, 1000⟩ 1 5 1 10 10).2.2) :=
  ⟨claim2_reminder_idempotence.2.2
      ⟨[⟨1, 300, 1, 0, .active, some 50, 10, some 5, none⟩],
       [⟨1, 1, 5, 1, 10, 10, .done, some 77, some 9⟩],
       [("channel_id", "-100")], 2, 1000⟩
      ⟨1, 300, 1, 0, .active, some 50, 10, some 5, none⟩ 5 (-100) (10, 5, 7)
      ⟨1, 1, 5, 1, 10, 10, .done, some 77, some 9⟩
      (by decide) (by decide) (Or.inl (by decide)),
   claim2_reminder_idempotence.1 ⟨[], [], [], 1, 1000⟩ 1 5 1 10 10 2 11 10⟩

/-- Claim C4: the finish transition reports a change and applies the
full update exactly when the book is not already finished, is a no-op
reporting no change on an already-finished book, stays a no-op under
arbitrary repetition, and in that case the scheduler's caller emits no
header edit and no completion announcement. -/
theorem claim4_finish_idempotent :
    (∀ (st : St) (bookId finishDate : Int) (lrp : Option Int),
      (∀ b ∈ st.books, b.id = bookId → b.status = BookStatus.finished) →
      finishBook st bookId finishDate lrp = (st, false)) ∧
    (∀ (st : St) (bookId finishDate : Int) (lrp : Option Int) (b : Book),
      b ∈ st.books → b.id = bookId → ¬ b.status = BookStatus.finished →
      (finishBook st bookId finishDate lrp).2 = true ∧
      { b with status := BookStatus.finished, finishedAt := some finishDate,
               lastReadDate := some finishDate,
               lastReadPage := lrp.getD b.lastReadPage } ∈
        (finishBook st bookId finishDate lrp).1.books) ∧
    (∀ (st : St) (bookId d1 d2 : Int) (l1 l2 : Option Int),
      finishBook (finishBook st bookId d1 l1).1 bookId d2 l2 =
        ((finishBook st bookId d1 l1).1, false)) ∧
    (∀ (st : St) (book : Book) (finishDate chId : Int),
      (∀ b ∈ st.books, b.id = book.id → b.status = BookStatus.finished) →
      finishBookIfNeeded st book finishDate chId = (st, [])) := by
  refine ⟨fun st bookId finishDate lrp h => finishBook_noop h, ?_, ?_, ?_⟩
  · intro st bookId finishDate lrp b hb hid hnf
    constructor
    · show st.books.any (finishHit bookId) = true
      rw [List.any_eq_true]
      exact ⟨b, hb, by simp [finishHit, hid, hnf]⟩
    · show _ ∈ st.books.map (finishApply bookId finishDate lrp)
      refine List.mem_map.mpr ⟨b, hb, ?_⟩
      simp [finishApply, finishHit, hid, hnf]
  · intro st bookId d1 d2 l1 l2
    apply finishBook_noop
    intro b hb hid
    have hb' : b ∈ st.books.map (finishApply bookId d1 l1) := hb
    rcases List.mem_map.mp hb' with ⟨a, ha, rfl⟩
    by_cases hhit : finishHit bookId a = true
    · simp [finishApply, hhit]
    · have hfix : finishApply bookId d1 l1 a = a := by simp [finishApply, hhit]
      rw [hfix] at hid ⊢
      simp [finishHit, hid] at hhit
      exact hhit
  · intro st book finishDate chId h
    unfold finishBookIfNeeded
    rw [finishBook_noop h]
    rfl

/-- Witness for C4: finishing an already-finished book is a no-op and
the scheduler caller stays silent. -/
theorem claim4_finish_idempotent_witness :
    finishBook
        ⟨[⟨1, 300, 1, 0, .finished, none, 300, some 9, some 9⟩], [], [], 1, 1000⟩
        1 11 none =
      (⟨[⟨1, 300, 1, 0, .finished, none, 300, some 9, some 9⟩], [], [], 1, 1000⟩,
       false) ∧
    finishBookIfNeeded
        ⟨[⟨1, 300, 1, 0, .finished, none, 300, some 9, some 9⟩], [], [], 1, 1000⟩
        ⟨1, 300, 1, 0, .finished, none, 300, some 9, some 9⟩ 11 (-100) =
      (⟨[⟨1, 300, 1, 0, .finished, none, 300, some 9, some 9⟩], [], [], 1, 1000⟩,
       []) :=
  ⟨claim4_finish_idempotent.1 _ 1 11 none (by decide),
   claim4_finish_idempotent.2.2.2 _
     ⟨1, 300, 1, 0, .finished, none, 300, some 9, some 9⟩ 11 (-100) (by decide)⟩

/-- Looking up a reminder id after `mark_reminder_done` (plain variant)
is the lookup in the old table with the done-transition mapped over it. -/
theorem findRemById_markDone_none (st : St) (rid now : Int) :
    findReminderById (markReminderDone st rid now none) rid =
      (findReminderById st rid).map
        (fun x => if x.id == rid
          then { x with status := RemStatus.done, doneAt := some now } else x) := by
  unfold markReminderDone findReminderById
  refine find?_map_pred _ _ (fun x => ?_) st.reminders
  by_cases hx : (x.id == rid) = true <;> simp [hx]

/-- Looking up a reminder id after `mark_reminder_done` with a range
override is the lookup in the old table with the transition mapped. -/
theorem findRemById_markDone_range (st : St) (rid now f t : Int) :
    findReminderById (markReminderDone st rid now (some (f, t))) rid =
      (findReminderById st rid).map
        (fun x => if x.id == rid
          then { x with status := RemStatus.done, doneAt := some now,
                        fromPage := f, toPage := t } else x) := by
  unfold markReminderDone findReminderById
  refine find?_map_pred _ _ (fun x => ?_) st.reminders
  by_cases hx : (x.id == rid) = true <;> simp [hx]

/-- Book lookup after `update_book_progress`, as a map over the old
lookup. -/
theorem findBook_updateProgress (st : St) (bid page pdate q : Int) :
    findBook (updateBookProgress st bid page pdate) q =
      (findBook st q).map (fun b =>
        if b.id == bid then
          { b with lastReadPage := page, lastReadDate := some pdate } else b) := by
  unfold updateBookProgress findBook
  refine find?_map_pred _ _ (fun b => ?_) st.books
  by_cases hb : (b.id == bid) = true <;> simp [hb]

/-- Book lookup after `finish_book`, as a map over the old lookup. -/
theorem findBook_finishBook (st : St) (i fd : Int) (p : Option Int) (q : Int) :
    findBook ((finishBook st i fd p).1) q =
      (findBook st q).map (finishApply i fd p) := by
  unfold finishBook findBook
  refine find?_map_pred _ _ (fun b => ?_) st.books
  unfold finishApply
  by_cases hb : finishHit i b = true <;> simp [hb]

/-- The bot's progress-then-finish sequence always leaves the book with
the acknowledged page and date, whether or not the finish transition
fires. -/
theorem progress_then_finish (stA : St) (book : Book) (rdate t q : Int)
    (h : findBook stA q = some book) :
    ∃ b2, findBook (finishBookIfCompleted
        (updateBookProgress stA book.id t rdate) book rdate t).1 q = some b2 ∧
      b2.lastReadPage = t ∧ b2.lastReadDate = some rdate := by
  have hA : (if (book.id == book.id) = true
        then { book with lastReadPage := t, lastReadDate := some rdate }
        else book) =
      { book with lastReadPage := t, lastReadDate := some rdate } := by simp
  by_cases htp : t < book.totalPages
  · have hfc : (finishBookIfCompleted
        (updateBookProgress stA book.id t rdate) book rdate t).1 =
        updateBookProgress stA book.id t rdate := by
      unfold finishBookIfCompleted
      rw [if_pos htp]
    rw [hfc, findBook_updateProgress, h]
    exact ⟨{ book with lastReadPage := t, lastReadDate := some rdate },
      by dsimp only [Option.map]; rw [hA], rfl, rfl⟩
  · have hfc : (finishBookIfCompleted
        (updateBookProgress stA book.id t rdate) book rdate t).1 =
        (finishBook (updateBookProgress stA book.id t rdate)
          book.id rdate (some t)).1 := by
      unfold finishBookIfCompleted
      rw [if_neg htp]
      rcases h4 : (finishBook (updateBookProgress stA book.id t rdate)
          book.id rdate (some t)).2
      · simp [h4]
      · rcases h5 : getChannelId (finishBook (updateBookProgress stA book.id t rdate)
            book.id rdate (some t)).1 <;> simp [h4, h5]
    rw [hfc, findBook_finishBook, findBook_updateProgress, h]
    refine ⟨finishApply book.id rdate (some t)
      { book with lastReadPage := t, lastReadDate := some rdate }, ?_, ?_, ?_⟩
    · dsimp only [Option.map]
      rw [hA]
    · unfold finishApply
      by_cases hhit : finishHit book.id
          { book with lastReadPage := t, lastReadDate := some rdate } = true <;>
        simp [hhit]
    · unfold finishApply
      by_cases hhit : finishHit book.id
          { book with lastReadPage := t, lastReadDate := some rdate } = true <;>
        simp [hhit]

/-- Claim C3 (refuted — code bug): `last_read_page` is claimed never to
decrease across any sequence of public operations, but evaluating the
code on a reachable trace — two scheduler runs creating pending
reminders 1–10 (day 0) and 1–15 (day 7), then plain mark-as-read
acknowledgments of reminder 2 and then reminder 1 — drops the book's
`last_read_page` from 15 back to 10, because `callback_mark_read`
overwrites progress with the stale reminder's `to_page` without the
strict-advancement check the corrected-range path has. -/
theorem claim3_monotonicity_code_bug :
    (findBook ((callbackMarkRead ((runForDate ((runForDate
          ⟨[⟨1, 300, 1, 0, .active, some 50, 0, none, none⟩], [],
            [("channel_id", "-100")], 1, 1000⟩ 0).1) 7).1) 2 500).1) 1).map
        Book.lastReadPage = some 15 ∧
    (findBook ((callbackMarkRead ((callbackMarkRead ((runForDate ((runForDate
          ⟨[⟨1, 300, 1, 0, .active, some 50, 0, none, none⟩], [],
            [("channel_id", "-100")], 1, 1000⟩ 0).1) 7).1) 2 500).1) 1 600).1) 1).map
        Book.lastReadPage = some 10 := ⟨by decide, by decide⟩

/-- Claim C7: when the stored `channel_id` is absent or not parseable as
an integer, `run_for_date` returns at once with the state untouched and
nothing posted. -/
theorem claim7_missing_channel_aborts :
    ∀ (st : St) (d : Int),
      (∀ s, lookupSetting st "channel_id" = some s → pyParseInt s = none) →
      runForDate st d = (st, []) := by
  intro st d h
  unfold runForDate
  rcases hc : lookupSetting st "channel_id" with _ | s
  · rfl
  · dsimp only
    rw [h s hc]
    by_cases he : (s == "") = true
    · rw [if_pos he]
    · rw [if_neg he]

/-- Witness for C7: an unparseable channel id aborts the run. -/
theorem claim7_missing_channel_aborts_witness :
    runForDate ⟨[⟨1, 300, 1, 0, .active, none, 0, none, none⟩], [],
        [("channel_id", "abc")], 1, 1000⟩ 3 =
      (⟨[⟨1, 300, 1, 0, .active, none, 0, none, none⟩], [],
        [("channel_id", "abc")], 1, 1000⟩, []) := by
  apply claim7_missing_channel_aborts
  intro s hs
  have h2 : some "abc" = some s := hs
  rw [← Option.some.inj h2]
  decide

/-- Claim C8: each pacing key falls back to its default (10, 5, 7
respectively) when the stored value is missing, unparseable or
non-positive, a positive stored integer is used as-is, and an invalid
stored `reminder_time` yields the 08:00 trigger. -/
theorem claim8_settings_fallback :
    (∀ fb : Int, parsePositiveInt none fb = fb) ∧
    (∀ (s : String) (fb : Int), pyParseInt s = none →
      parsePositiveInt (some s) fb = fb) ∧
    (∀ (s : String) (n fb : Int), pyParseInt s = some n → n ≤ 0 →
      parsePositiveInt (some s) fb = fb) ∧
    (∀ (s : String) (n fb : Int), pyParseInt s = some n → 0 < n →
      parsePositiveInt (some s) fb = n) ∧
    (∀ st : St, getAlgorithmSettings st =
      (parsePositiveInt (lookupSetting st "start_pages") 10,
       parsePositiveInt (lookupSetting st "weekly_increment") 5,
       parsePositiveInt (lookupSetting st "increment_every_days") 7)) ∧
    (∀ (st : St) (s : String), lookupSetting st "reminder_time" = some s →
      parseTimeHHMM s = none → refreshScheduleTime st = (8, 0)) := by
  refine ⟨fun fb => rfl, ?_, ?_, ?_, fun st => rfl, ?_⟩
  · intro s fb h
    unfold parsePositiveInt
    dsimp only
    rw [h]
  · intro s n fb h hn
    unfold parsePositiveInt
    dsimp only
    rw [h]
    exact if_pos hn
  · intro s n fb h hn
    unfold parsePositiveInt
    dsimp only
    rw [h]
    exact if_neg (by omega)
  · intro st s hs hp
    unfold refreshScheduleTime
    rw [hs]
    dsimp only
    by_cases he : (s == "") = true
    · rw [if_pos he]
      rfl
    · rw [if_neg he, hp]

/-- Witness for C8 at concrete invalid, non-positive, valid and
malformed-time stored values. -/
theorem claim8_settings_fallback_witness :
    parsePositiveInt (some "abc") 10 = 10 ∧
    parsePositiveInt (some "-3") 5 = 5 ∧
    parsePositiveInt (some "12") 7 = 12 ∧
    refreshScheduleTime ⟨[], [], [("reminder_time", "25:00")], 1, 1000⟩ = (8, 0) :=
  ⟨claim8_settings_fallback.2.1 "abc" 10 (by decide),
   claim8_settings_fallback.2.2.1 "-3" (-3) 5 (by decide) (by decide),
   claim8_settings_fallback.2.2.2.1 "12" 12 7 (by decide) (by decide),
   claim8_settings_fallback.2.2.2.2.2 ⟨[], [], [("reminder_time", "25:00")], 1, 1000⟩
     "25:00" (by decide) (by decide)⟩

/-- Claim C10: for a pending reminder whose book exists, the plain
mark-as-read acknowledgment marks it done and sets the book's
last_read_page to the reminder's stored to_page and last_read_date to
the reminder's date unconditionally — no hypothesis relates to_page to
the book's current progress, unlike the corrected-range path. -/
theorem claim10_plain_ack_unconditional :
    ∀ (st : St) (rid now : Int) (r : Reminder) (book : Book),
      findReminderById st rid = some r →
      r.status = RemStatus.pending →
      findBook st r.bookId = some book →
      findReminderById (callbackMarkRead st rid now).1 rid =
        some { r with status := RemStatus.done, doneAt := some now } ∧
      ∃ b2, findBook (callbackMarkRead st rid now).1 r.bookId = some b2 ∧
        b2.lastReadPage = r.toPage ∧ b2.lastReadDate = some r.date := by
  intro st rid now r book h1 hp h2
  have h1' : st.reminders.find? (fun x => x.id == rid) = some r := h1
  have hid : (r.id == rid) = true :=
    List.find?_some (p := fun x : Reminder => x.id == rid) (a := r) h1'
  unfold callbackMarkRead
  rw [h1]
  dsimp only
  rw [if_neg (show ¬((r.status == RemStatus.done) = true) by simp [hp]), h2]
  dsimp only
  constructor
  · rw [findRemById_congr (finishBookIfCompleted_reminders
        (updateBookProgress (markReminderDone st rid now none) book.id
          r.toPage r.date) book r.date r.toPage) rid]
    rw [show findReminderById (updateBookProgress
          (markReminderDone st rid now none) book.id r.toPage r.date) rid =
        findReminderById (markReminderDone st rid now none) rid from rfl]
    rw [findRemById_markDone_none, h1]
    dsimp only [Option.map]
    rw [if_pos hid]
  · exact progress_then_finish (markReminderDone st rid now none) book
      r.date r.toPage r.bookId (show _ from h2)

/-- Witness for C10: acknowledging a stale pending reminder (to_page 25)
on a book already at page 100 still overwrites progress with 25. -/
theorem claim10_plain_ack_unconditional_witness :
    findReminderById ((callbackMarkRead
        ⟨[⟨1, 300, 1, 0, .active, some 50, 100, some 6, none⟩],
         [⟨1, 1, 5, 1, 25, 25, .pending, some 77, none⟩],
         [("channel_id", "-100")], 2, 1000⟩ 1 900).1) 1 =
      some ⟨1, 1, 5, 1, 25, 25, .done, some 77, some 900⟩ ∧
    ∃ b2, findBook ((callbackMarkRead
        ⟨[⟨1, 300, 1, 0, .active, some 50, 100, some 6, none⟩],
         [⟨1, 1, 5, 1, 25, 25, .pending, some 77, none⟩],
         [("channel_id", "-100")], 2, 1000⟩ 1 900).1) 1 = some b2 ∧
      b2.lastReadPage = 25 ∧ b2.lastReadDate = some 5 :=
  claim10_plain_ack_unconditional
    ⟨[⟨1, 300, 1, 0, .active, some 50, 100, some 6, none⟩],
     [⟨1, 1, 5, 1, 25, 25, .pending, some 77, none⟩],
     [("channel_id", "-100")], 2, 1000⟩ 1 900
    ⟨1, 1, 5, 1, 25, 25, .pending, some 77, none⟩
    ⟨1, 300, 1, 0, .active, some 50, 100, some 6, none⟩
    (by decide) rfl (by decide)

/-- Reminder lookup by (book, date) after `set_reminder_channel_message`,
as a map over the old lookup. -/
theorem findRemBD_setChannel (st : St) (rid mid b d : Int) :
    findReminderBD (setReminderChannelMessage st rid mid) b d =
      (findReminderBD st b d).map
        (fun x => if x.id == rid
          then { x with channelMessageId := some mid } else x) := by
  unfold setReminderChannelMessage findReminderBD
  refine find?_map_pred _ _ (fun x => ?_) st.reminders
  by_cases hx : (x.id == rid) = true <;> simp [hx]

/-- Claim C5: a corrected range on a live pending reminder is accepted
exactly when from ≤ to, from ≥ start_page, to ≤ total_pages and
to > last_read_page; a rejected correction leaves the whole state
untouched, and an accepted one records the range on the done reminder
and advances the book to `to`. -/
theorem claim5_corrected_range_validation :
    ∀ (st : St) (rid f t now : Int) (r : Reminder) (book : Book),
      findReminderById st rid = some r →
      ¬ r.status = RemStatus.done →
      findBook st r.bookId = some book →
      ((handleReadDifferent st rid f t now).2.2 = true ↔
        (f ≤ t ∧ book.startPage ≤ f ∧ t ≤ book.totalPages ∧
          book.lastReadPage < t)) ∧
      ((handleReadDifferent st rid f t now).2.2 = false →
        (handleReadDifferent st rid f t now).1 = st) ∧
      ((handleReadDifferent st rid f t now).2.2 = true →
        findReminderById (handleReadDifferent st rid f t now).1 rid =
          some { r with status := RemStatus.done, doneAt := some now,
                        fromPage := f, toPage := t } ∧
        ∃ b2, findBook (handleReadDifferent st rid f t now).1 r.bookId =
            some b2 ∧ b2.lastReadPage = t) := by
  intro st rid f t now r book h1 hd h2
  have h1' : st.reminders.find? (fun x => x.id == rid) = some r := h1
  have hid : (r.id == rid) = true :=
    List.find?_some (p := fun x : Reminder => x.id == rid) (a := r) h1'
  unfold handleReadDifferent
  rw [h1]
  dsimp only
  rw [if_neg (show ¬((r.status == RemStatus.done) = true) by simp [hd]), h2]
  dsimp only
  by_cases c1 : t < f
  · rw [if_pos c1]
    refine ⟨⟨fun hx => by simp at hx, fun hc => absurd hc.1 (by omega)⟩,
      fun _ => rfl, fun hx => by simp at hx⟩
  · rw [if_neg c1]
    by_cases c2 : f < book.startPage
    · rw [if_pos c2]
      refine ⟨⟨fun hx => by simp at hx, fun hc => absurd hc.2.1 (by omega)⟩,
        fun _ => rfl, fun hx => by simp at hx⟩
    · rw [if_neg c2]
      by_cases c3 : book.totalPages < t
      · rw [if_pos c3]
        refine ⟨⟨fun hx => by simp at hx, fun hc => absurd hc.2.2.1 (by omega)⟩,
          fun _ => rfl, fun hx => by simp at hx⟩
      · rw [if_neg c3]
        by_cases c4 : t ≤ book.lastReadPage
        · rw [if_pos c4]
          refine ⟨⟨fun hx => by simp at hx, fun hc => absurd hc.2.2.2 (by omega)⟩,
            fun _ => rfl, fun hx => by simp at hx⟩
        · rw [if_neg c4]
          dsimp only
          refine ⟨⟨fun _ => ⟨by omega, by omega, by omega, by omega⟩, fun _ => rfl⟩,
            fun hx => by simp at hx, fun _ => ⟨?_, ?_⟩⟩
          · rw [findRemById_congr (finishBookIfCompleted_reminders
                (updateBookProgress (markReminderDone st rid now (some (f, t)))
                  book.id t r.date) book r.date t) rid]
            rw [show findReminderById (updateBookProgress
                  (markReminderDone st rid now (some (f, t))) book.id t r.date)
                  rid =
                findReminderById (markReminderDone st rid now (some (f, t))) rid
              from rfl]
            rw [findRemById_markDone_range, h1]
            dsimp only [Option.map]
            rw [if_pos hid]
          · rcases progress_then_finish (markReminderDone st rid now (some (f, t)))
                book r.date t r.bookId (show _ from h2) with ⟨b2, hb2, hlrp, _⟩
            exact ⟨b2, hb2, hlrp⟩

/-- Witness for C5: Scenario D (to_page 79 against last_read_page 85) is
rejected with no mutation; Scenario C (80–89 against last_read_page 79)
is accepted and advances the book to page 89. -/
theorem claim5_corrected_range_validation_witness :
    (handleReadDifferent
        ⟨[⟨1, 300, 1, 0, .active, some 50, 85, some 4, none⟩],
         [⟨1, 1, 5, 80, 95, 16, .pending, some 70, none⟩],
         [("channel_id", "-100")], 2, 1000⟩ 1 70 79 900).2.2 = false ∧
    (handleReadDifferent
        ⟨[⟨1, 300, 1, 0, .active, some 50, 85, some 4, none⟩],
         [⟨1, 1, 5, 80, 95, 16, .pending, some 70, none⟩],
         [("channel_id", "-100")], 2, 1000⟩ 1 70 79 900).1 =
      ⟨[⟨1, 300, 1, 0, .active, some 50, 85, some 4, none⟩],
       [⟨1, 1, 5, 80, 95, 16, .pending, some 70, none⟩],
       [("channel_id", "-100")], 2, 1000⟩ ∧
    (handleReadDifferent
        ⟨[⟨1, 300, 1, 0, .active, some 50, 79, some 4, none⟩],
         [⟨1, 1, 5, 80, 95, 16, .pending, some 70, none⟩],
         [("channel_id", "-100")], 2, 1000⟩ 1 80 89 900).2.2 = true ∧
    ∃ b2, findBook (handleReadDifferent
        ⟨[⟨1, 300, 1, 0, .active, some 50, 79, some 4, none⟩],
         [⟨1, 1, 5, 80, 95, 16, .pending, some 70, none⟩],
         [("channel_id", "-100")], 2, 1000⟩ 1 80 89 900).1 1 = some b2 ∧
      b2.lastReadPage = 89 := by
  have hD := claim5_corrected_range_validation
    ⟨[⟨1, 300, 1, 0, .active, some 50, 85, some 4, none⟩],
     [⟨1, 1, 5, 80, 95, 16, .pending, some 70, none⟩],
     [("channel_id", "-100")], 2, 1000⟩ 1 70 79 900
    ⟨1, 1, 5, 80, 95, 16, .pending, some 70, none⟩
    ⟨1, 300, 1, 0, .active, some 50, 85, some 4, none⟩
    (by decide) (by decide) (by decide)
  have hC := claim5_corrected_range_validation
    ⟨[⟨1, 300, 1, 0, .active, some 50, 79, some 4, none⟩],
     [⟨1, 1, 5, 80, 95, 16, .pending, some 70, none⟩],
     [("channel_id", "-100")], 2, 1000⟩ 1 80 89 900
    ⟨1, 1, 5, 80, 95, 16, .pending, some 70, none⟩
    ⟨1, 300, 1, 0, .active, some 50, 79, some 4, none⟩
    (by decide) (by decide) (by decide)
  have hDf : (handleReadDifferent
      ⟨[⟨1, 300, 1, 0, .active, some 50, 85, some 4, none⟩],
       [⟨1, 1, 5, 80, 95, 16, .pending, some 70, none⟩],
       [("channel_id", "-100")], 2, 1000⟩ 1 70 79 900).2.2 = false := by
    rcases hb : (handleReadDifferent
        ⟨[⟨1, 300, 1, 0, .active, some 50, 85, some 4, none⟩],
         [⟨1, 1, 5, 80, 95, 16, .pending, some 70, none⟩],
         [("channel_id", "-100")], 2, 1000⟩ 1 70 79 900).2.2
    · rfl
    · exact absurd (hD.1.mp hb).2.2.2 (by decide)
  have hCt := hC.1.mpr (by decide)
  rcases hC.2.2 hCt with ⟨_, b2, hb2, hlrp⟩
  exact ⟨hDf, hD.2.1 hDf, hCt, b2, hb2, hlrp⟩

/-- Claim C9 as stated is false: a scheduler run over an existing
reminder that is pending and handle-less posts the message and records
the handle, changing the stored channel message handle from `none` to
`some 1000`. -/
theorem claim9_counterexample :
    findReminderBD
      ((runForDate ⟨[⟨1, 300, 1, 0, .active, some 50, 0, none, none⟩],
          [⟨1, 1, 5, 1, 10, 10, .pending, none, none⟩],
          [("channel_id", "-100")], 2, 1000⟩ 5).1) 1 5 =
      some ⟨1, 1, 5, 1, 10, 10, .pending, some 1000, none⟩ ∧
    findReminderBD
      ⟨[⟨1, 300, 1, 0, .active, some 50, 0, none, none⟩],
       [⟨1, 1, 5, 1, 10, 10, .pending, none, none⟩],
       [("channel_id", "-100")], 2, 1000⟩ 1 5 =
      some ⟨1, 1, 5, 1, 10, 10, .pending, none, none⟩ :=
  ⟨by decide, by decide⟩

/-- Claim C9, amended: when a reminder already exists for (book, date),
a scheduler pass keeps its from_page, to_page, pages_planned and status
unchanged — the freshly computed range is discarded, whatever the
book's current last_read_page — and the channel message handle is also
unchanged whenever the reminder is non-pending or already carries one
(a pending handle-less reminder may instead get a fresh handle). -/
theorem claim9_existing_reminder_frame :
    ∀ (st : St) (book : Book) (d ch : Int) (algo : Int × Int × Int) (r : Reminder),
      findReminderBD st book.id d = some r →
      ∃ h, findReminderBD (processBookForDate st book d ch algo).1 book.id d =
          some { r with channelMessageId := h } ∧
        ((¬ r.status = RemStatus.pending ∨ ¬ r.channelMessageId = none) →
          h = r.channelMessageId) := by
  intro st book d ch algo r hfind
  unfold processBookForDate
  by_cases hd : d < book.startDate
  · rw [if_pos hd]
    exact ⟨r.channelMessageId, hfind, fun _ => rfl⟩
  · rw [if_neg hd]
    by_cases hfin : book.totalPages ≤ book.lastReadPage
    · rw [if_pos hfin]
      refine ⟨r.channelMessageId, ?_, fun _ => rfl⟩
      rw [findRemBD_congr (finishBookIfNeeded_reminders st book d ch) book.id d]
      exact hfind
    · rw [if_neg hfin]
      dsimp only
      by_cases hfr : book.totalPages <
          (calculateDailyRange book d algo.1 algo.2.1 algo.2.2).1
      · rw [if_pos hfr]
        refine ⟨r.channelMessageId, ?_, fun _ => rfl⟩
        rw [findRemBD_congr (finishBookIfNeeded_reminders st book d ch) book.id d]
        exact hfind
      · rw [if_neg hfr, createOrGet_of_found hfind]
        dsimp only
        by_cases hs : (r.status == RemStatus.pending) = true
        · have hsp : r.status = RemStatus.pending := by simpa using hs
          rw [if_neg (show ¬((!(r.status == RemStatus.pending)) = true)
            by simp [hs])]
          by_cases hc : r.channelMessageId.isSome = true
          · rw [if_pos hc]
            exact ⟨r.channelMessageId, hfind, fun _ => rfl⟩
          · have hcn : r.channelMessageId = none := by
              rcases hco : r.channelMessageId
              · rfl
              · rw [hco] at hc
                simp at hc
            rw [if_neg hc]
            dsimp only
            refine ⟨some st.nextMessageId, ?_, ?_⟩
            · have hf2 : findReminderBD
                  { st with nextMessageId := st.nextMessageId + 1 } book.id d =
                  some r := hfind
              rw [findRemBD_setChannel, hf2]
              dsimp only [Option.map]
              rw [if_pos (show (r.id == r.id) = true by simp)]
            · intro hpre
              rcases hpre with hg | hg
              · exact absurd hsp hg
              · exact absurd hcn hg
        · have hsf : (r.status == RemStatus.pending) = false := by
            rcases hb : (r.status == RemStatus.pending)
            · rfl
            · exact absurd hb hs
          rw [if_pos (show ((!(r.status == RemStatus.pending)) = true)
            by rw [hsf]; rfl)]
          exact ⟨r.channelMessageId, hfind, fun _ => rfl⟩

/-- Witness for the amended C9: a done reminder with a handle survives a
scheduler pass completely unchanged. -/
theorem claim9_existing_reminder_frame_witness :
    ∃ h, findReminderBD ((processBookForDate
        ⟨[⟨1, 300, 1, 0, .active, some 50, 10, some 5, none⟩],
         [⟨1, 1, 5, 1, 10, 10, .done, some 55, some 6⟩],
         [("channel_id", "-100")], 2, 1000⟩
        ⟨1, 300, 1, 0, .active, some 50, 10, some 5, none⟩ 5 (-100)
        (10, 5, 7)).1) 1 5 =
      some ⟨1, 1, 5, 1, 10, 10, .done, h, some 6⟩ ∧
    ((¬ RemStatus.done = RemStatus.pending ∨
        ¬ (some (55 : Int) : Option Int) = none) → h = some 55) :=
  claim9_existing_reminder_frame
    ⟨[⟨1, 300, 1, 0, .active, some 50, 10, some 5, none⟩],
     [⟨1, 1, 5, 1, 10, 10, .done, some 55, some 6⟩],
     [("channel_id", "-100")], 2, 1000⟩
    ⟨1, 300, 1, 0, .active, some 50, 10, some 5, none⟩ 5 (-100) (10, 5, 7)
    ⟨1, 1, 5, 1, 10, 10, .done, some 55, some 6⟩ (by decide)

end LibraryBot
